import Mathlib

/-! # Verification of the Ride-Hailing Interactive Deck API

Shallow embedding of `src/main.py` (FastAPI service). Python float
arithmetic is modelled over `ℚ`; Python `round` (banker's rounding,
ties to even) is `rhe` and `round2`; Python `int()` truncation toward
zero is `pyint`; Python `//` floor division is `Int.fdiv`; Python's
string truthiness test `if s:` on an optional query parameter is
`truthy`.
-/

namespace RideDeck

/-- Python `round(q)` to an integer: round half to even (banker's rounding). -/
def rhe (q : ℚ) : ℤ :=
  let f := ⌊q⌋
  let r := q - f
  if r < 1/2 then f
  else if 1/2 < r then f + 1
  else if f % 2 = 0 then f else f + 1

/-- Python `round(q, 2)`: round to two decimal places, ties to even. -/
def round2 (q : ℚ) : ℚ := (rhe (100 * q) : ℚ) / 100

/-- Python `int(q)`: truncation toward zero. -/
def pyint (q : ℚ) : ℤ := if 0 ≤ q then ⌊q⌋ else -⌊-q⌋

/-- `CityRow` model, `src/main.py` lines 18-25. The `vehicle` field is a
`Literal["car", "bike"]` in the source; modelled as a plain string since the
chart-data filter compares it by string equality. -/
structure CityRow where
  city : String
  avg_weekly_hours : ℤ
  avg_takehome_before_costs : ℤ
  avg_takehome_after_costs : ℤ
  pct_female_drivers : ℚ
  pct_uninsured : ℚ
  vehicle : String
deriving DecidableEq, Repr

/-- The fixed six records, `src/main.py` lines 29-37. -/
def SAMPLE_DATA : List CityRow :=
  [ { city := "Islamabad", avg_weekly_hours := 76, avg_takehome_before_costs := 28000,
      avg_takehome_after_costs := 19000, pct_female_drivers := 1.0, pct_uninsured := 78.0,
      vehicle := "car" },
    { city := "Lahore", avg_weekly_hours := 82, avg_takehome_before_costs := 30000,
      avg_takehome_after_costs := 19500, pct_female_drivers := 0.5, pct_uninsured := 82.0,
      vehicle := "car" },
    { city := "Karachi", avg_weekly_hours := 85, avg_takehome_before_costs := 31500,
      avg_takehome_after_costs := 20000, pct_female_drivers := 0.7, pct_uninsured := 80.0,
      vehicle := "car" },
    { city := "Islamabad", avg_weekly_hours := 70, avg_takehome_before_costs := 24000,
      avg_takehome_after_costs := 16500, pct_female_drivers := 1.2, pct_uninsured := 76.0,
      vehicle := "bike" },
    { city := "Lahore", avg_weekly_hours := 78, avg_takehome_before_costs := 25500,
      avg_takehome_after_costs := 17000, pct_female_drivers := 0.6, pct_uninsured := 81.0,
      vehicle := "bike" },
    { city := "Karachi", avg_weekly_hours := 80, avg_takehome_before_costs := 26500,
      avg_takehome_after_costs := 17400, pct_female_drivers := 0.8, pct_uninsured := 79.0,
      vehicle := "bike" } ]

/-- Python truthiness of an optional string parameter: `if city:` is taken
only when the parameter is present and non-empty. -/
def truthy : Option String → Bool
  | none => false
  | some s => !(s == "")

/-- `chart_data`, `src/main.py` lines 69-76: filter by case-insensitive city
match when the `city` parameter is truthy, then by exact vehicle match when
the `vehicle` parameter is truthy. -/
def chart_data (city vehicle : Option String) : List CityRow :=
  let data := SAMPLE_DATA
  let data := if truthy city then
      data.filter fun d => d.city.toLower == (city.getD "").toLower
    else data
  let data := if truthy vehicle then
      data.filter fun d => d.vehicle == vehicle.getD ""
    else data
  data

/-- SimInput model, `src/main.py` lines 79-85. -/
structure SimInput where
  hours_online : ℤ
  fuel_cost_per_liter : ℚ
  km_driven : ℤ
  base_fare_per_km : ℚ
  algorithm_bonus : ℚ := 0
  algorithm_penalty : ℚ := 0
deriving DecidableEq, Repr

/-- SimResult: the JSON object returned by `simulate_day`,
`src/main.py` lines 111-118. -/
structure SimResult where
  gross_income : ℚ
  fuel_cost : ℚ
  maintenance : ℚ
  platform_fee : ℚ
  net_takehome : ℚ
  stress_index : ℤ
deriving DecidableEq, Repr

/-- Fuel efficiency step function, `src/main.py` line 94:
`18 if inp.km_driven < 120 else 16`. -/
def fuel_eff_km_per_l (km_driven : ℤ) : ℚ :=
  if km_driven < 120 then 18 else 16

/-- `simulate_day`, `src/main.py` lines 88-118. -/
def simulate_day (inp : SimInput) : SimResult :=
  let gross_income := (inp.km_driven : ℚ) * inp.base_fare_per_km
  let gross_income := gross_income * (1 + inp.algorithm_bonus)
  let gross_income := gross_income * (1 - inp.algorithm_penalty)
  let liters := (inp.km_driven : ℚ) / fuel_eff_km_per_l inp.km_driven
  let fuel_cost := liters * inp.fuel_cost_per_liter
  let maintenance := 0.08 * gross_income
  let platform_fee := 0.12 * gross_income
  let net_takehome := gross_income - (fuel_cost + maintenance + platform_fee)
  let stress : ℤ := 50
  let stress := if 10 < inp.hours_online then stress + (inp.hours_online - 10) * 4 else stress
  let stress := if 0 < inp.algorithm_penalty then
      stress + Int.fdiv (pyint (inp.algorithm_penalty * 100)) 2
    else stress
  let stress := max 0 (min 100 stress)
  { gross_income := round2 gross_income
    fuel_cost := round2 fuel_cost
    maintenance := round2 maintenance
    platform_fee := round2 platform_fee
    net_takehome := round2 net_takehome
    stress_index := stress }

/-- The scenario enum of `/api/platform-comparison`, `src/main.py` line 123. -/
inductive Scenario
  | short
  | peak
  | long
deriving DecidableEq, Repr

/-- Beneficiary values, `src/main.py` line 144. -/
inductive Beneficiary
  | driver
  | passenger
  | balanced
deriving DecidableEq, Repr

/-- Scenario distance, `src/main.py` line 128:
`4.0 if scenario == "short" else (10.0 if scenario == "peak" else 18.0)`. -/
def km : Scenario → ℚ
  | .short => 4.0
  | .peak => 10.0
  | .long => 18.0

/-- Scenario surge multiplier, `src/main.py` line 129:
`1.0 if scenario == "short" else (1.35 if scenario == "peak" else 1.1)`. -/
def surge : Scenario → ℚ
  | .short => 1.0
  | .peak => 1.35
  | .long => 1.1

/-- `yango_fare = round(base_per_km * km * surge + 60, 0)`,
`src/main.py` lines 127-130, with `base_per_km = 35.0`. -/
def yango_fare (s : Scenario) : ℚ := (rhe (35.0 * km s * surge s + 60) : ℚ)

/-- `fair_range_low = 30 * km`, `src/main.py` line 133. -/
def fair_range_low (s : Scenario) : ℚ := 30 * km s

/-- `fair_range_high = 55 * km`, `src/main.py` line 134. -/
def fair_range_high (s : Scenario) : ℚ := 55 * km s

/-- The unrounded acceptance probability, `src/main.py` lines 135-142. -/
def acceptance_raw (s : Scenario) (proposed_fare : ℚ) : ℚ :=
  if proposed_fare < fair_range_low s then
    max 0.05 (proposed_fare / fair_range_low s)
  else if fair_range_high s < proposed_fare then
    0.95 - min 0.4 ((proposed_fare - fair_range_high s) / fair_range_high s)
  else
    0.75 + 0.2 * ((proposed_fare - fair_range_low s) / (fair_range_high s - fair_range_low s))

/-- The JSON object returned by `platform_comparison`,
`src/main.py` lines 146-153. -/
structure PlatformComparisonResult where
  scenario : Scenario
  yango_fare : ℚ
  indrive_proposed : ℚ
  acceptance_prob : ℚ
  beneficiary : Beneficiary
  km : ℚ
deriving DecidableEq, Repr

/-- `platform_comparison` handler body, `src/main.py` lines 121-153. -/
def platform_comparison (s : Scenario) (proposed_fare : ℚ) : PlatformComparisonResult :=
  { scenario := s
    yango_fare := yango_fare s
    indrive_proposed := proposed_fare
    acceptance_prob := round2 (acceptance_raw s proposed_fare)
    beneficiary :=
      if yango_fare s < proposed_fare then .driver
      else if proposed_fare < yango_fare s then .passenger
      else .balanced
    km := km s }

/-- Parse the scenario query parameter against `Literal["short", "peak", "long"]`,
`src/main.py` line 123. -/
def parse_scenario (s : String) : Option Scenario :=
  if s = "short" then some .short
  else if s = "peak" then some .peak
  else if s = "long" then some .long
  else none

/-- Modelled from the spec: FastAPI request validation for the declarations at
`src/main.py` lines 122-125 (`Literal["short", "peak", "long"]` and
`Query(300.0, ge=50.0, le=3000.0)`). A scenario outside the enum or a
proposed fare outside [50, 3000] is rejected with a validation error (HTTP
422) before the handler body runs; the validation code itself lives in the
FastAPI framework, not in `src/`. -/
def platform_comparison_endpoint (scenario : String) (proposed_fare : ℚ) :
    Except Unit PlatformComparisonResult :=
  match parse_scenario scenario with
  | none => Except.error ()
  | some s =>
    if proposed_fare < 50 ∨ 3000 < proposed_fare then Except.error ()
    else Except.ok (platform_comparison s proposed_fare)

/-- Claim-side predicate for the chart-data filter: the record's city matches
the city filter case-insensitively when one is given. -/
def spec_city_match : Option String → CityRow → Bool
  | none, _ => true
  | some c, d => d.city.toLower == c.toLower

/-- Claim-side predicate for the chart-data filter: the record's vehicle
equals the vehicle filter exactly when one is given. -/
def spec_vehicle_match : Option String → CityRow → Bool
  | none, _ => true
  | some v, d => d.vehicle == v

lemma floor_le_rhe (q : ℚ) : ⌊q⌋ ≤ rhe q := by
  unfold rhe
  dsimp only
  split_ifs <;> omega

lemma rhe_le_ceil (q : ℚ) : rhe q ≤ ⌈q⌉ := by
  unfold rhe
  dsimp only
  split_ifs with h1 h2 h3
  · exact Int.floor_le_ceil q
  · have hlt : (⌊q⌋ : ℚ) < q := by linarith
    have := Int.lt_ceil.mpr hlt
    omega
  · exact Int.floor_le_ceil q
  · have hge : (1 : ℚ)/2 ≤ q - ⌊q⌋ := not_lt.mp h1
    have hlt : (⌊q⌋ : ℚ) < q := by linarith
    have := Int.lt_ceil.mpr hlt
    omega

lemma round2_nonneg {q : ℚ} (h : 0 ≤ q) : 0 ≤ round2 q := by
  unfold round2
  have h1 : (0 : ℤ) ≤ ⌊(100 : ℚ) * q⌋ := Int.floor_nonneg.mpr (by positivity)
  have h2 : (0 : ℤ) ≤ rhe (100 * q) := le_trans h1 (floor_le_rhe _)
  have h3 : (0 : ℚ) ≤ (rhe (100 * q) : ℚ) := by exact_mod_cast h2
  positivity

lemma round2_le_one {q : ℚ} (h : q ≤ 1) : round2 q ≤ 1 := by
  unfold round2
  have h1 : ⌈(100 : ℚ) * q⌉ ≤ 100 := Int.ceil_le.mpr (by push_cast; linarith)
  have h2 : rhe (100 * q) ≤ 100 := le_trans (rhe_le_ceil _) h1
  have h3 : (rhe (100 * q) : ℚ) ≤ 100 := by exact_mod_cast h2
  linarith

/-- C1 counterexample: at scenario peak with proposed fare 300 the yango fare
produced by the code is 532, not the 533 stated by the claim: the exact fare
35 * 10 * 1.35 + 60 = 532.5 is a tie and Python rounds ties to even. -/
theorem peak_yango_fare_not_533 :
    (platform_comparison .peak 300).yango_fare = 532 ∧ ((532 : ℚ) ≠ 533) := by
  constructor
  · show yango_fare .peak = 532
    unfold yango_fare km surge rhe
    norm_num
  · norm_num

/-- C1 (amended): for scenario peak with proposed fare 300 the result has
km 10, yango fare 532 (round-half-to-even of 532.5), acceptance probability
0.75 and beneficiary passenger. -/
theorem peak_comparison_amended :
    (platform_comparison .peak 300).km = 10
    ∧ (platform_comparison .peak 300).yango_fare = 532
    ∧ (platform_comparison .peak 300).acceptance_prob = 0.75
    ∧ (platform_comparison .peak 300).beneficiary = .passenger := by
  have hy : yango_fare .peak = 532 := by
    unfold yango_fare km surge rhe
    norm_num
  refine ⟨?_, hy, ?_, ?_⟩
  · show km .peak = 10
    norm_num [km]
  · show round2 (acceptance_raw .peak 300) = 0.75
    have ha : acceptance_raw .peak 300 = 0.75 := by
      unfold acceptance_raw fair_range_low fair_range_high km
      norm_num
    rw [ha]
    unfold round2 rhe
    norm_num
  · show (if yango_fare .peak < 300 then Beneficiary.driver
      else if (300 : ℚ) < yango_fare .peak then Beneficiary.passenger
      else Beneficiary.balanced) = Beneficiary.passenger
    rw [hy]
    norm_num

/-- C3: with hours_online 8, fuel 150 per liter, 100 km at base fare 30 and no
bonus or penalty, the simulation yields gross 3000, fuel cost 833.33 at
efficiency 18 since 100 < 120, maintenance 240, platform fee 360, net
take-home 1566.67 and stress index 50. -/
theorem simulate_example_day :
    fuel_eff_km_per_l 100 = 18
    ∧ simulate_day
        { hours_online := 8, fuel_cost_per_liter := 150, km_driven := 100,
          base_fare_per_km := 30 } =
      { gross_income := 3000, fuel_cost := 83333/100, maintenance := 240,
        platform_fee := 360, net_takehome := 156667/100, stress_index := 50 } := by
  constructor
  · norm_num [fuel_eff_km_per_l]
  · unfold simulate_day fuel_eff_km_per_l round2 rhe
    norm_num

/-- C8: no division in either handler can divide by zero: the fuel-efficiency
divisor is always 18 or 16, and the platform-comparison divisors
fair_range_low, fair_range_high and their difference are strictly positive
for every scenario. -/
theorem no_division_by_zero :
    (∀ k : ℤ, fuel_eff_km_per_l k = 18 ∨ fuel_eff_km_per_l k = 16)
    ∧ (∀ s : Scenario, 0 < fair_range_low s ∧ 0 < fair_range_high s
        ∧ 0 < fair_range_high s - fair_range_low s) := by
  constructor
  · intro k
    unfold fuel_eff_km_per_l
    split_ifs
    · exact Or.inl rfl
    · exact Or.inr rfl
  · intro s
    cases s <;> norm_num [fair_range_low, fair_range_high, km]

lemma simulate_day_stress (inp : SimInput) :
    (simulate_day inp).stress_index =
      max 0 (min 100 (50
        + (if 10 < inp.hours_online then (inp.hours_online - 10) * 4 else 0)
        + (if 0 < inp.algorithm_penalty then
            Int.fdiv (pyint (inp.algorithm_penalty * 100)) 2 else 0))) := by
  unfold simulate_day
  dsimp only
  split_ifs <;> simp

/-- C2: for every SimInput the stress index is the clamp to [0, 100] of 50,
plus (hours_online - 10) * 4 when hours_online exceeds 10, plus the
truncation toward zero of algorithm_penalty * 100 floor-divided by 2 when the
penalty is positive; in particular hours_online = 14 with penalty 0.20 gives
50 + 16 + 10 = 76. -/
theorem stress_index_spec :
    (∀ inp : SimInput, (simulate_day inp).stress_index =
      max 0 (min 100 (50
        + (if 10 < inp.hours_online then (inp.hours_online - 10) * 4 else 0)
        + (if 0 < inp.algorithm_penalty then
            Int.fdiv (pyint (inp.algorithm_penalty * 100)) 2 else 0))))
    ∧ (simulate_day
        { hours_online := 14, fuel_cost_per_liter := 150, km_driven := 100,
          base_fare_per_km := 30, algorithm_penalty := 0.20 }).stress_index = 76 := by
  refine ⟨simulate_day_stress, ?_⟩
  rw [simulate_day_stress]
  have hp : pyint (20 : ℚ) = 20 := by
    unfold pyint
    norm_num
  have hf : Int.fdiv 20 2 = 10 := by decide
  norm_num [hp, hf]

lemma fair_bounds (s : Scenario) :
    0 < fair_range_low s ∧ fair_range_low s < fair_range_high s := by
  cases s <;> norm_num [fair_range_low, fair_range_high, km]

/-- C4: for every valid scenario and proposed fare in [50, 3000], the
unrounded acceptance probability follows the three-branch piecewise formula
of the spec, with both fair-range bounds falling inclusively in the
interpolation branch. -/
theorem acceptance_piecewise (s : Scenario) (pf : ℚ) (_h1 : 50 ≤ pf) (_h2 : pf ≤ 3000) :
    (pf < fair_range_low s → acceptance_raw s pf = max 0.05 (pf / fair_range_low s))
    ∧ (fair_range_high s < pf →
        acceptance_raw s pf = 0.95 - min 0.4 ((pf - fair_range_high s) / fair_range_high s))
    ∧ (fair_range_low s ≤ pf → pf ≤ fair_range_high s →
        acceptance_raw s pf =
          0.75 + 0.2 * ((pf - fair_range_low s) / (fair_range_high s - fair_range_low s))) := by
  obtain ⟨hlow, hlh⟩ := fair_bounds s
  refine ⟨fun h => ?_, fun h => ?_, fun ha hb => ?_⟩
  · rw [acceptance_raw, if_pos h]
  · rw [acceptance_raw, if_neg (not_lt.mpr (le_of_lt (lt_trans hlh h))), if_pos h]
  · rw [acceptance_raw, if_neg (not_lt.mpr ha), if_neg (not_lt.mpr hb)]

/-- C4 witness: the theorem applied at scenario peak with proposed fare 300. -/
theorem acceptance_piecewise_witness :
    ((300 : ℚ) < fair_range_low .peak →
        acceptance_raw .peak 300 = max 0.05 (300 / fair_range_low .peak))
    ∧ (fair_range_high .peak < 300 →
        acceptance_raw .peak 300 =
          0.95 - min 0.4 ((300 - fair_range_high .peak) / fair_range_high .peak))
    ∧ (fair_range_low .peak ≤ 300 → 300 ≤ fair_range_high .peak →
        acceptance_raw .peak 300 =
          0.75 + 0.2 * ((300 - fair_range_low .peak)
            / (fair_range_high .peak - fair_range_low .peak))) :=
  acceptance_piecewise .peak 300 (by decide) (by decide)

lemma acceptance_raw_mem (s : Scenario) (pf : ℚ) :
    0 ≤ acceptance_raw s pf ∧ acceptance_raw s pf ≤ 1 := by
  obtain ⟨hlow, hlh⟩ := fair_bounds s
  have hhigh : 0 < fair_range_high s := lt_trans hlow hlh
  unfold acceptance_raw
  split_ifs with hb1 hb2
  · constructor
    · have h05 : (0.05 : ℚ) ≤ max 0.05 (pf / fair_range_low s) := le_max_left _ _
      linarith
    · refine max_le (by norm_num) ?_
      rw [div_le_one hlow]
      linarith
  · have hd : 0 ≤ (pf - fair_range_high s) / fair_range_high s :=
      div_nonneg (by linarith) hhigh.le
    have hmin1 : min (0.4 : ℚ) ((pf - fair_range_high s) / fair_range_high s) ≤ 0.4 :=
      min_le_left _ _
    have hmin0 : 0 ≤ min (0.4 : ℚ) ((pf - fair_range_high s) / fair_range_high s) :=
      le_min (by norm_num) hd
    constructor <;> linarith
  · have hge : fair_range_low s ≤ pf := not_lt.mp hb1
    have hle : pf ≤ fair_range_high s := not_lt.mp hb2
    have hdiff : 0 < fair_range_high s - fair_range_low s := by linarith
    have ht0 : 0 ≤ (pf - fair_range_low s) / (fair_range_high s - fair_range_low s) :=
      div_nonneg (by linarith) hdiff.le
    have ht1 : (pf - fair_range_low s) / (fair_range_high s - fair_range_low s) ≤ 1 := by
      rw [div_le_one hdiff]
      linarith
    constructor <;> nlinarith

/-- C7: for every valid scenario and proposed fare in [50, 3000], the rounded
acceptance probability returned by platform_comparison lies in [0, 1]. -/
theorem acceptance_prob_mem_unit (s : Scenario) (pf : ℚ)
    (_h1 : 50 ≤ pf) (_h2 : pf ≤ 3000) :
    0 ≤ (platform_comparison s pf).acceptance_prob
    ∧ (platform_comparison s pf).acceptance_prob ≤ 1 := by
  have h := acceptance_raw_mem s pf
  exact ⟨round2_nonneg h.1, round2_le_one h.2⟩

/-- C7 witness: the theorem applied at scenario peak with proposed fare 300. -/
theorem acceptance_prob_mem_unit_witness :
    0 ≤ (platform_comparison .peak 300).acceptance_prob
    ∧ (platform_comparison .peak 300).acceptance_prob ≤ 1 :=
  acceptance_prob_mem_unit .peak 300 (by decide) (by decide)

/-- C9: with scenario short the fair range is [120, 220]; the proposed fare
119 just below it gets unrounded acceptance 119/120, which exceeds the 0.95
ceiling of every in-range fare, so acceptance is not monotone in the
proposed fare. -/
theorem below_range_beats_in_range (pf : ℚ) (h1 : 120 ≤ pf) (h2 : pf ≤ 220) :
    fair_range_low .short = 120 ∧ fair_range_high .short = 220
    ∧ acceptance_raw .short 119 = 119/120
    ∧ acceptance_raw .short pf ≤ 0.95
    ∧ (0.95 : ℚ) < 119/120
    ∧ (50 : ℚ) ≤ 119 ∧ (119 : ℚ) ≤ 3000 := by
  have hl : fair_range_low .short = 120 := by norm_num [fair_range_low, km]
  have hh : fair_range_high .short = 220 := by norm_num [fair_range_high, km]
  refine ⟨hl, hh, ?_, ?_, by norm_num, by norm_num, by norm_num⟩
  · rw [acceptance_raw, hl, if_pos (by norm_num : (119 : ℚ) < 120)]
    rw [max_eq_right (by norm_num : (0.05 : ℚ) ≤ 119/120)]
  · rw [acceptance_raw, hl, hh, if_neg (not_lt.mpr h1), if_neg (not_lt.mpr h2)]
    have ht1 : (pf - 120) / (220 - 120 : ℚ) ≤ 1 := by
      rw [div_le_one (by norm_num : (0 : ℚ) < 220 - 120)]
      linarith
    nlinarith [ht1]

/-- C9 witness: the theorem applied at the in-range proposed fare 120. -/
theorem below_range_beats_in_range_witness :
    fair_range_low .short = 120 ∧ fair_range_high .short = 220
    ∧ acceptance_raw .short 119 = 119/120
    ∧ acceptance_raw .short 120 ≤ 0.95
    ∧ (0.95 : ℚ) < 119/120
    ∧ (50 : ℚ) ≤ 119 ∧ (119 : ℚ) ≤ 3000 :=
  below_range_beats_in_range 120 (by decide) (by decide)

/-- C6: a request to the platform-comparison endpoint with a proposed fare
outside [50, 3000] or a scenario outside the short/peak/long enum is rejected
with a validation error and no result is computed. -/
theorem comparison_endpoint_rejects_invalid (s : String) (f : ℚ)
    (h : f < 50 ∨ 3000 < f ∨ (s ≠ "short" ∧ s ≠ "peak" ∧ s ≠ "long")) :
    platform_comparison_endpoint s f = Except.error () := by
  rcases h with h | h | ⟨h1, h2, h3⟩
  · cases hp : parse_scenario s with
    | none => simp [platform_comparison_endpoint, hp]
    | some sc =>
      simp only [platform_comparison_endpoint, hp]
      rw [if_pos (Or.inl h)]
  · cases hp : parse_scenario s with
    | none => simp [platform_comparison_endpoint, hp]
    | some sc =>
      simp only [platform_comparison_endpoint, hp]
      rw [if_pos (Or.inr h)]
  · have hp : parse_scenario s = none := by
      unfold parse_scenario
      rw [if_neg h1, if_neg h2, if_neg h3]
    simp [platform_comparison_endpoint, hp]

/-- C6 witness: the theorem applied at scenario peak with proposed fare 20. -/
theorem comparison_endpoint_rejects_invalid_witness :
    platform_comparison_endpoint "peak" 20 = Except.error () :=
  comparison_endpoint_rejects_invalid "peak" 20 (Or.inl (by decide))

/-- C5: for every pair of optional filters, where a given filter is a
non-empty string, chart_data returns exactly the records of the fixed six
matching the city filter case-insensitively and the vehicle filter exactly,
in original order; with no filters it returns all six records. -/
theorem chart_data_filter_spec (co vo : Option String)
    (hc : co ≠ some "") (hv : vo ≠ some "") :
    chart_data co vo =
      SAMPLE_DATA.filter (fun d => spec_city_match co d && spec_vehicle_match vo d)
    ∧ chart_data none none = SAMPLE_DATA := by
  refine ⟨?_, by simp [chart_data, truthy]⟩
  cases co with
  | none =>
    cases vo with
    | none => simp [chart_data, truthy, spec_city_match, spec_vehicle_match]
    | some v =>
      have hv' : (v == "") = false := by
        rcases eq_or_ne v "" with h | h
        · exact absurd (by rw [h]) hv
        · exact beq_eq_false_iff_ne.mpr h
      simp [chart_data, truthy, spec_city_match, spec_vehicle_match, hv']
  | some c =>
    have hc' : (c == "") = false := by
      rcases eq_or_ne c "" with h | h
      · exact absurd (by rw [h]) hc
      · exact beq_eq_false_iff_ne.mpr h
    cases vo with
    | none => simp [chart_data, truthy, spec_city_match, spec_vehicle_match, hc']
    | some v =>
      have hv' : (v == "") = false := by
        rcases eq_or_ne v "" with h | h
        · exact absurd (by rw [h]) hv
        · exact beq_eq_false_iff_ne.mpr h
      simp [chart_data, truthy, spec_city_match, spec_vehicle_match, hc', hv',
        List.filter_filter, Bool.and_comm]

/-- C5 witness: the theorem applied at city Lahore and vehicle bike. -/
theorem chart_data_filter_spec_witness :
    chart_data (some "Lahore") (some "bike") =
      SAMPLE_DATA.filter
        (fun d => spec_city_match (some "Lahore") d && spec_vehicle_match (some "bike") d)
    ∧ chart_data none none = SAMPLE_DATA :=
  chart_data_filter_spec (some "Lahore") (some "bike") (by decide) (by decide)

/-- C10: an empty-string city or vehicle query parameter is treated exactly
like an absent parameter by chart_data: the corresponding filter is skipped. -/
theorem empty_filter_ignored :
    (∀ vo : Option String, chart_data (some "") vo = chart_data none vo)
    ∧ (∀ co : Option String, chart_data co (some "") = chart_data co none) := by
  constructor
  · intro vo
    simp [chart_data, truthy]
  · intro co
    simp [chart_data, truthy]

end RideDeck
